import Mathlib

/-!
Verification of the face-matching decision engine of the attendance system
(`facial_recognition/views.py` and `facial_recognition/face_recognition_utils.py`).

The external primitives (face localization, `face_recognition.face_distance`,
scipy cosine distance, `np.corrcoef`, PIL/cv2 pixel statistics) are outside the
repository; following the spec they are treated as collaborators, and every
comparison of the live descriptor with one stored gallery entry is represented
by the raw metric values those primitives return.  Everything the Python code
itself does with those values (clamping, NaN substitution, weighting, bonuses,
match counting, aggregation, thresholds, the gallery-search loop, the timeout
dispatch, the quality gate) is embedded below over exact rationals.

Square roots leave ℚ, so the single place the source uses `np.std`
(the consistency penalty in `advanced_face_comparison`,
face_recognition_utils.py lines 276-280) takes the standard deviation as an
explicit argument `distStd`; theorems either hold for every value of that
argument or pin it to the exact value, stated through `npVariance`.
-/

namespace FacialRec

/-- Arithmetic mean, `np.mean` (sum divided by length; 0 on the empty list,
which the source never hits on a live path). -/
def npMean (l : List ℚ) : ℚ := l.sum / (l.length : ℚ)

/-- Population variance, `np.var`: mean of squared deviations from the mean.
Used only to pin down `distStd` arguments: `np.std l` is the unique `s ≥ 0`
with `s ^ 2 = npVariance l`. -/
def npVariance (l : List ℚ) : ℚ := npMean (l.map (fun x => (x - npMean l) ^ 2))

/-- Insert into a descending-sorted list, keeping it sorted. -/
def insertDescQ (x : ℚ) : List ℚ → List ℚ
  | [] => [x]
  | y :: ys => if y ≤ x then x :: y :: ys else y :: insertDescQ x ys

/-- Tot-order descending sort, modelling Python `sorted(xs, reverse=True)`.
Only the multiset of values matters to the callers (top-k mean). -/
def sortDescQ : List ℚ → List ℚ
  | [] => []
  | x :: xs => insertDescQ x (sortDescQ xs)

/-- Insert into an ascending-sorted list. -/
def insertAscQ (x : ℚ) : List ℚ → List ℚ
  | [] => [x]
  | y :: ys => if x ≤ y then x :: y :: ys else y :: insertAscQ x ys

/-- Ascending sort, modelling Python `sorted(xs)`. -/
def sortAscQ : List ℚ → List ℚ
  | [] => []
  | x :: xs => insertAscQ x (sortAscQ xs)

/-- Percentile 60 as computed by numpy with the default linear interpolation:
position `0.6 * (n - 1)` in the ascending sort, interpolating between the
two neighbouring order statistics. -/
def npPercentile60 (l : List ℚ) : ℚ :=
  let s := sortAscQ l
  if s.isEmpty then 0 else
    let pos : ℚ := 3 / 5 * ((s.length : ℚ) - 1)
    let i : ℕ := (Int.floor pos).toNat
    let frac : ℚ := pos - (i : ℚ)
    match s.get? i, s.get? (i + 1) with
    | some a, some b => a + frac * (b - a)
    | some a, none => a
    | none, _ => 0

/-! ## Configuration objects

`SMART_CONFIG` (views.py lines 29-42) and `ADVANCED_CONFIG`
(face_recognition_utils.py lines 20-66), restricted to the fields the
embedded functions read. -/

/-- The fields of views.py `SMART_CONFIG` read by the embedded code. -/
structure SmartConfig where
  min_photos : ℕ
  base_tolerance : ℚ
  min_confidence : ℚ
  min_matches : ℕ
  max_tolerance : ℚ
  strict_mode : Bool
  verification_timeout : ℕ

/-- views.py lines 29-42. -/
def smartConfig : SmartConfig :=
  { min_photos := 5
    base_tolerance := 0.40
    min_confidence := 0.70
    min_matches := 3
    max_tolerance := 0.45
    strict_mode := true
    verification_timeout := 10 }

/-- The fields of `ADVANCED_CONFIG` read by the embedded code
(face_recognition_utils.py lines 20-66). -/
structure AdvConfig where
  base_tolerance : ℚ
  min_confidence : ℚ
  max_euclidean_distance : ℚ
  max_tolerance : ℚ
  min_matches : ℕ
  quality_threshold : ℚ
  min_quality_for_verification : ℚ
  use_landmarks : Bool
  min_landmark_similarity : ℚ
  consistency_threshold : ℚ

/-- face_recognition_utils.py lines 20-66. -/
def advancedConfig : AdvConfig :=
  { base_tolerance := 0.50
    min_confidence := 0.75
    max_euclidean_distance := 0.52
    max_tolerance := 0.58
    min_matches := 1
    quality_threshold := 0.25
    min_quality_for_verification := 0.2
    use_landmarks := true
    min_landmark_similarity := 0.65
    consistency_threshold := 0.25 }

/-! ## Match scorer of views.py: `intelligent_face_comparison` (lines 258-376)

One stored-encoding comparison is the triple of raw metric outputs the three
external primitives return for that pair of descriptors:
Euclidean distance (`face_recognition.face_distance`), cosine similarity
(`1 - scipy.spatial.distance.cosine`) and Pearson correlation
(`np.corrcoef`).  This function performs no NaN handling (unlike the
advanced scorer), so the fields are plain rationals: theorems restrict to
real-valued primitive outputs where their mathematical bounds are needed. -/

structure IntCmp where
  dist : ℚ
  cosine : ℚ
  corr : ℚ
deriving DecidableEq

/-- One employee record as seen by `intelligent_face_comparison`:
`encCmps` mirrors `stored_data['encodings']` (a `none` entry is a stored
`None` encoding, skipped by the loop), each `some` carrying the raw metrics
of its comparison with the live descriptor.  `lmSims` mirrors
`stored_data['landmarks']`: `some s` is a successfully computed cosine
similarity of truncated landmark vectors with more than 100 shared points,
`none` a stored `None` entry or one with too few points. -/
structure IntStored where
  encCmps : List (Option IntCmp)
  lmSims : List (Option ℚ)
deriving DecidableEq

/-- Per-comparison combined score, views.py lines 298-302:
`(1 - euclidean) * 0.6 + cosine * 0.25 + correlation * 0.15`.
No input is clamped (relevant to claim C7). -/
def intCmpScore (c : IntCmp) : ℚ :=
  (1 - c.dist) * 0.6 + c.cosine * 0.25 + c.corr * 0.15

/-- The comparisons the loop actually scores: stored `None` entries are
skipped (line 278), and in strict mode entries with Euclidean distance
above 0.6 are skipped (lines 287-288). -/
def intIncluded (cfg : SmartConfig) (l : List (Option IntCmp)) : List IntCmp :=
  (l.filterMap id).filter (fun c => !(cfg.strict_mode && decide (c.dist > 0.6)))

/-- The list all_scores of the loop (views.py line 310): the combined score in
normal mode, `1 - euclidean` in quick mode. -/
def intAllScores (cfg : SmartConfig) (quick : Bool) (l : List (Option IntCmp)) : List ℚ :=
  (intIncluded cfg l).map (fun c => if quick then 1 - c.dist else intCmpScore c)

/-- The list high_quality_scores (views.py lines 304-306): combined scores above
0.5; never collected in quick mode. -/
def intHQScores (cfg : SmartConfig) (quick : Bool) (l : List (Option IntCmp)) : List ℚ :=
  if quick then []
  else ((intIncluded cfg l).map intCmpScore).filter (fun s => decide (s > 0.5))

/-- views.py lines 258-376, `intelligent_face_comparison`.
`currentLm` is whether the live capture produced a landmark vector;
explanation strings keep the source literals, with interpolated numbers
elided.  Returns `(is_match, confidence, explanation)`. -/
def intelligent_face_comparison (cfg : SmartConfig) (st : IntStored)
    (currentLm : Bool) (quick : Bool) : Bool × ℚ × String :=
  if st.encCmps = [] then (false, 0, "Sin datos de rostro")
  else if cfg.strict_mode = true ∧ currentLm = false then
    (false, 0, "No se detectaron puntos faciales - rostro incompleto")
  else
    let allScores := intAllScores cfg quick st.encCmps
    let hq := intHQScores cfg quick st.encCmps
    if cfg.strict_mode = true ∧ hq.length < cfg.min_matches then
      (false, 0, "Insuficientes coincidencias")
    else
      let lmSims := st.lmSims.filterMap id
      if currentLm = true ∧ st.lmSims ≠ [] ∧ lmSims ≠ [] ∧
          cfg.strict_mode = true ∧ ¬(npMean lmSims > 0.65) then
        (false, 0, "Geometría facial no coincide")
      else if allScores = [] then (false, 0, "No hay coincidencias")
      else
        let finalScore := if cfg.strict_mode = true ∧ hq ≠ [] then npMean hq
                          else npPercentile60 allScores
        let tolerance := if cfg.strict_mode then cfg.base_tolerance else cfg.max_tolerance
        if finalScore < cfg.min_confidence then
          (false, finalScore, "Confianza insuficiente")
        else
          (decide (finalScore ≥ 1 - tolerance) && decide (finalScore ≥ cfg.min_confidence),
           min 1 finalScore, "Score")

/-! ## Match scorer of face_recognition_utils.py: `advanced_face_comparison`
(lines 158-349)

Here the cosine and correlation computations sit inside `try/except` blocks
with an `np.isnan` check, so their raw outputs are `Option ℚ`: `none` is a
NaN result or a raised exception, `some v` a real value. -/

structure AdvCmp where
  dist : ℚ
  cosine : Option ℚ
  corr : Option ℚ
deriving DecidableEq

/-- One employee record as seen by `advanced_face_comparison`.
`encCmps` mirrors `stored_data['encodings']` with `none` for stored `None`
entries.  `lmSims` mirrors `stored_data['landmarks']`: `some s` is a
successfully computed landmark similarity (entry non-None, more than 60
shared points, no NaN, no exception), `none` otherwise.  `envAdapt` mirrors
`stored_data['environmental_adaptations']`: for each adaptation entry,
`some d` is the Euclidean distance of its encoding to the live descriptor,
`none` an entry without an `encoding` key or whose comparison raised. -/
structure AdvStored where
  encCmps : List (Option AdvCmp)
  lmSims : List (Option ℚ)
  envAdapt : List (List (Option ℚ))
deriving DecidableEq

/-- face_recognition_utils.py lines 199-208 for cosine (and 211-217 for
correlation): a NaN or an exception is replaced by the neutral value 0.5,
then the value is floored at 0. -/
def advMetricVal : Option ℚ → ℚ
  | none => 0.5
  | some v => max 0 v

/-- face_recognition_utils.py line 199:
`euclidean_score = max(0, 1 - euclidean_dist / max_euclidean)`. -/
def advEucScore (cfg : AdvConfig) (d : ℚ) : ℚ :=
  max 0 (1 - d / cfg.max_euclidean_distance)

/-- Per-comparison final score, face_recognition_utils.py lines 219-235:
weighted combination plus the three distance bonuses, capped at 1. -/
def advCmpScore (cfg : AdvConfig) (c : AdvCmp) : ℚ :=
  let combined := advEucScore cfg c.dist * 0.5 +
    advMetricVal c.cosine * 0.3 + advMetricVal c.corr * 0.2
  let bonus :=
    (if c.dist ≤ 0.35 then 0.02 else 0) +
    (if c.dist ≤ cfg.base_tolerance ∧ advMetricVal c.cosine ≥ 0.75 then 0.015 else 0) +
    (if c.dist ≤ 0.30 then 0.03 else 0)
  min (combined + bonus) 1

/-- The non-None stored encodings (the loop at line 181 skips `None`). -/
def advEntries (l : List (Option AdvCmp)) : List AdvCmp := l.filterMap id

/-- The list all_distances (face_recognition_utils.py line 188). -/
def advDistances (l : List (Option AdvCmp)) : List ℚ :=
  (advEntries l).map (fun c => c.dist)

/-- The per-encoding contributions to `all_scores`
(face_recognition_utils.py line 236): every non-None stored encoding
contributes, whatever its distance. -/
def advEncScores (cfg : AdvConfig) (l : List (Option AdvCmp)) : List ℚ :=
  (advEntries l).map (advCmpScore cfg)

/-- The counter acceptable_matches (lines 195-196): distance within `max_tolerance`. -/
def advAcceptableCount (cfg : AdvConfig) (l : List (Option AdvCmp)) : ℕ :=
  ((advDistances l).filter (fun d => decide (d ≤ cfg.max_tolerance))).length

/-- The counter excellent_matches (lines 191-192): distance at most 0.35. -/
def advExcellentCount (l : List (Option AdvCmp)) : ℕ :=
  ((advDistances l).filter (fun d => decide (d ≤ 0.35))).length

/-- The counter high_quality_matches (lines 193-194): distance within `base_tolerance`. -/
def advHighQualityCount (cfg : AdvConfig) (l : List (Option AdvCmp)) : ℕ :=
  ((advDistances l).filter (fun d => decide (d ≤ cfg.base_tolerance))).length

/-- Environmental-adaptation contributions to `all_scores`
(face_recognition_utils.py lines 249-265): an adaptation with distance
within `max_tolerance` scores `max 0 (1 - d / max_tolerance)` and is kept
only when that score is at least 0.6. -/
def advEnvScores (cfg : AdvConfig) (env : List (List (Option ℚ))) : List ℚ :=
  (env.flatten.filterMap id).filterMap (fun d =>
    if d ≤ cfg.max_tolerance then
      let s := max 0 (1 - d / cfg.max_tolerance)
      if s ≥ 0.6 then some s else none
    else none)

/-- face_recognition_utils.py lines 158-345, `advanced_face_comparison`.
`distStd` is the value of `np.std(all_distances)` (see the file comment);
theorems quantify over it or pin it via `npVariance`.
Returns `(is_match, confidence, explanation)`. -/
def advanced_face_comparison (cfg : AdvConfig) (st : AdvStored)
    (currentLm : Bool) (distStd : ℚ) : Bool × ℚ × String :=
  if st.encCmps = [] then (false, 0, "Sin datos de rostro registrados")
  else
    let ds := advDistances st.encCmps
    let excellent := advExcellentCount st.encCmps
    let hq := advHighQualityCount cfg st.encCmps
    let acceptable := advAcceptableCount cfg st.encCmps
    let allScores := advEncScores cfg st.encCmps ++ advEnvScores cfg st.envAdapt
    if allScores = [] then (false, 0, "No se encontraron coincidencias válidas")
    else if acceptable < cfg.min_matches then (false, 0, "Insuficientes matches aceptables")
    else
      let distancePenalty :=
        if ds.length > 1 ∧ distStd > cfg.consistency_threshold then
          min (distStd * 0.1) 0.05
        else 0
      let lmCand := (st.lmSims.filterMap id).filter (fun s => decide (s ≥ 0.5))
      let landmarkBonus :=
        if currentLm = true ∧ st.lmSims ≠ [] ∧ cfg.use_landmarks = true ∧
            lmCand ≠ [] ∧ npMean lmCand ≥ cfg.min_landmark_similarity then
          min (npMean lmCand * 0.03) 0.03
        else 0
      let baseConfidence := npMean ((sortDescQ allScores).take 3)
      let qualityBonus :=
        (if excellent > 0 then 0.02 * (excellent : ℚ) else 0) +
        (if hq > 0 then 0.01 * (hq : ℚ) else 0)
      let finalConfidence :=
        max 0 (min (baseConfidence + landmarkBonus + qualityBonus - distancePenalty) 1)
      (decide (finalConfidence ≥ cfg.min_confidence) && decide (acceptable ≥ cfg.min_matches),
       finalConfidence, "Confianza")

/-! ## Image quality gate: `detect_image_quality`
(face_recognition_utils.py lines 68-132)

The pixel statistics are produced by external primitives (cv2.Laplacian,
`ImageStat`, `np.std`); the gate consumes four scalar statistics of the
image and — notably — never reads the image dimensions (claim C5).
`analysisFails` models a raised exception anywhere inside the `try` block
(lines 123-132, claim C10). -/

structure ImageStats where
  laplacianVar : ℚ
  brightnessMean : ℚ
  contrastStd : ℚ
  noiseStd : ℚ
deriving DecidableEq

/-- A decoded image: its pixel dimensions and the statistics the external
primitives compute from its pixels. -/
structure RawImage where
  width : ℕ
  height : ℕ
  stats : ImageStats
deriving DecidableEq

/-- The dictionary returned by `detect_image_quality`. -/
structure QualityInfo where
  overall_quality : ℚ
  blur_score : ℚ
  brightness : ℚ
  brightness_score : ℚ
  contrast : ℚ
  noise_score : ℚ
  is_acceptable : Bool
deriving DecidableEq

/-- face_recognition_utils.py lines 68-132, `detect_image_quality`. -/
def detect_image_quality (cfg : AdvConfig) (img : RawImage)
    (analysisFails : Bool) : QualityInfo :=
  if analysisFails then
    { overall_quality := 0.3, blur_score := 0.3, brightness := 0.5
      brightness_score := 0.5, contrast := 0.3, noise_score := 0.3
      is_acceptable := true }
  else
    let blurScore := min (img.stats.laplacianVar / 30) 1
    let b := img.stats.brightnessMean
    let brightnessScore :=
      if b < 0.15 ∨ b > 0.95 then (0.5 : ℚ)
      else if b < 0.25 ∨ b > 0.85 then 0.8
      else 1
    let contrastScore := min (img.stats.contrastStd / 50) 1
    let noiseScore := max 0 (1 - img.stats.noiseStd / 50)
    let quality := blurScore * 0.3 + brightnessScore * 0.4 +
      contrastScore * 0.2 + noiseScore * 0.1
    { overall_quality := quality, blur_score := blurScore, brightness := b
      brightness_score := brightnessScore, contrast := contrastScore
      noise_score := noiseScore
      is_acceptable :=
        decide (quality ≥ cfg.quality_threshold) && decide (blurScore ≥ 0.2) &&
        decide (brightnessScore ≥ 0.3) && decide (contrastScore ≥ 0.15) }

/-- The only quality-based rejection on the advanced registration path
(face_recognition_utils.py line 514): a photo is skipped when it is not
acceptable AND its overall quality is below 0.15. -/
def advRegQualityRejects (q : QualityInfo) : Bool :=
  !q.is_acceptable && decide (q.overall_quality < 0.15)

/-- The only quality-based rejection on the advanced verification path
(face_recognition_utils.py line 691): reject when overall quality is below
`min_quality_for_verification`. -/
def advVerifyQualityRejects (cfg : AdvConfig) (q : QualityInfo) : Bool :=
  decide (q.overall_quality < cfg.min_quality_for_verification)

/-! ## Gallery search: the per-employee loop of
`process_verification_with_timeout` (views.py lines 647-694)

The loop compares the live descriptor against every enrolled employee and
tracks a running best.  Its control flow branches on wall-clock time:
before 70% of the timeout it runs the full `intelligent_face_comparison`;
between 70% and 90% it degrades to a cheap distance-only comparison against
the first stored encoding; past 90% it breaks out of the loop.  Wall-clock
time is external, so the schedule of modes is an input: one `SearchMode`
per employee in iteration order. -/

inductive SearchMode
  | full
  | quick
  | stop
deriving DecidableEq

/-- One enrolled employee as seen by the search loop. -/
structure SearchEmp where
  empId : ℕ
  stored : IntStored
deriving DecidableEq

/-- One entry of `all_results`. -/
structure SRes where
  emp : ℕ
  conf : ℚ
  isMatch : Bool
deriving DecidableEq

/-- The loop of views.py lines 647-694, with state
`(best_match, best_confidence, all_results)` (initialised to
`(None, 0, [])` at lines 636-638).  In quick mode (lines 657-673) the first
stored encoding is used if present (an empty or `None` first entry raises
inside the per-employee `try` and the employee is skipped); the result is
recorded only when `confidence > 0.45`, its match flag is
`confidence > 0.5`, and the running best is updated on confidence alone.
In full mode (lines 675-690) the scorer verdict is always recorded and the
best is updated only when `is_match` holds and the confidence strictly
exceeds the running best. -/
def runSearchAux (cfg : SmartConfig) (currentLm : Bool) :
    List (SearchEmp × SearchMode) → Option ℕ → ℚ → List SRes →
    Option ℕ × ℚ × List SRes
  | [], best, bc, rs => (best, bc, rs)
  | (_, SearchMode.stop) :: _, best, bc, rs => (best, bc, rs)
  | (e, SearchMode.quick) :: rest, best, bc, rs =>
    match e.stored.encCmps.head? with
    | some (some c) =>
      let conf := 1 - c.dist
      if conf > 0.45 then
        let rs := rs ++ [⟨e.empId, conf, decide (conf > 0.5)⟩]
        if conf > bc then runSearchAux cfg currentLm rest (some e.empId) conf rs
        else runSearchAux cfg currentLm rest best bc rs
      else runSearchAux cfg currentLm rest best bc rs
    | _ => runSearchAux cfg currentLm rest best bc rs
  | (e, SearchMode.full) :: rest, best, bc, rs =>
    let v := intelligent_face_comparison cfg e.stored currentLm false
    let rs := rs ++ [⟨e.empId, v.2.1, v.1⟩]
    if v.1 = true ∧ v.2.1 > bc then runSearchAux cfg currentLm rest (some e.empId) v.2.1 rs
    else runSearchAux cfg currentLm rest best bc rs

/-- The gallery search over the enrolled population. -/
def runSearch (cfg : SmartConfig) (currentLm : Bool)
    (items : List (SearchEmp × SearchMode)) : Option ℕ × ℚ × List SRes :=
  runSearchAux cfg currentLm items none 0 []

/-! ## Timeout dispatch: `process_verification_with_timeout` (views.py
lines 708-720) and `verify_attendance_face` (lines 929-1050)

The inner pipeline runs in a `ThreadPoolExecutor` future raced against the
timeout.  The executor outcome is external (it depends on wall-clock
time), so it is the input: either the future timed out, or it completed
with the inner function's `(data, error)` pair. -/

/-- The search outcome carried in the inner result dictionary. -/
structure VerifData where
  best : Option ℕ
  bestConf : ℚ
  results : List SRes
deriving DecidableEq

/-- Outcome of racing the inner verification future against the timeout. -/
inductive ExecOutcome
  | timedOut
  | completed (data : Option VerifData) (error : Option String)
deriving DecidableEq

/-- The exact timeout message produced at views.py line 718 and compared
against at line 960. -/
def timeoutMsg : String := "Timeout: La verificación excedió los 10 segundos"

/-- views.py lines 708-720: on a `FutureTimeoutError` return
`(None, timeoutMsg)`, otherwise the inner `(data, error)` pair. -/
def process_verification_with_timeout : ExecOutcome → Option VerifData × Option String
  | ExecOutcome.timedOut => (none, some timeoutMsg)
  | ExecOutcome.completed d e => (d, e)

/-- Python `max(all_results, key=confidence)`: first result attaining the
maximal confidence (views.py line 989). -/
def maxByConf : List SRes → Option SRes
  | [] => none
  | r :: rs => some (rs.foldl (fun acc x => if x.conf > acc.conf then x else acc) r)

/-- The distinct HTTP responses of `verify_attendance_face`. -/
inductive VerifyResponse
  | missingPhoto
  | timeout
  | badRequest (msg : String)
  | processingError
  | accessDenied (closest : Option ℕ)
  | noEmployees
  | success (empId : ℕ) (conf : ℚ)
deriving DecidableEq

/-- views.py lines 929-1050, `verify_attendance_face`, reduced to its
response dispatch: the timeout message maps to the 408 timeout response
(lines 960-967), any other error to 400, a missing result to 500, no best
match to 403 (naming the closest candidate when its confidence exceeds
0.3) or 404 when there are no results, and a best match to the 200
success response that records attendance. -/
def verify_attendance_face (hasPhoto : Bool) (out : ExecOutcome) : VerifyResponse :=
  if hasPhoto = false then VerifyResponse.missingPhoto
  else
    let r := process_verification_with_timeout out
    match r.2 with
    | some e => if e = timeoutMsg then VerifyResponse.timeout else VerifyResponse.badRequest e
    | none =>
      match r.1 with
      | none => VerifyResponse.processingError
      | some d =>
        match d.best with
        | none =>
          match maxByConf d.results with
          | none => VerifyResponse.noEmployees
          | some c =>
            VerifyResponse.accessDenied (if c.conf > 0.3 then some c.emp else none)
        | some e => VerifyResponse.success e d.bestConf

/-! ## Enrollment: `create_employee` (views.py lines 722-822) and
`register_employee_face` (lines 824-927)

`process_registration_photos` (lines 378-564) processes each photo through
face localization and encoding extraction (external primitives); its
per-photo outcome is modelled by whether an encoding was obtained, and
`valid_photos` counts the successes (line 561).  Neither enrollment view
performs any comparison against other employees' galleries: the only
database lookups are the employee-id uniqueness probe in `create_employee`
and the employee fetch in `register_employee_face`.  The `existing`
argument below carries every other employee's gallery precisely to state
that fact (claim C1). -/

/-- The field valid_photos of `process_registration_photos`: the number of photos
whose encoding extraction succeeded. -/
def process_registration_valid_photos (photos : List Bool) : ℕ :=
  (photos.filter id).length

/-- Whether `create_employee` (views.py lines 722-822) accepts the request
and stores the new gallery: the name must be non-empty (line 733), at
least `min_photos` photos must be supplied (line 740) and at least 3 must
yield an encoding (lines 760-770).  The galleries of existing employees
are never consulted. -/
def create_employee_accepts (cfg : SmartConfig) (name : String)
    (photos : List Bool) (existing : List IntStored) : Bool :=
  decide (name ≠ "") && decide (photos.length ≥ cfg.min_photos) &&
    decide (process_registration_valid_photos photos ≥ 3)

/-- Whether `register_employee_face` (views.py lines 824-927) accepts the
request and replaces the employee's gallery: at least `min_photos` photos
(line 840), the employee must exist (line 849), and at least 3 photos must
yield an encoding (lines 862-872).  Existing galleries are never
consulted. -/
def register_employee_face_accepts (cfg : SmartConfig) (employeeFound : Bool)
    (photos : List Bool) (existing : List IntStored) : Bool :=
  decide (photos.length ≥ cfg.min_photos) && employeeFound &&
    decide (process_registration_valid_photos photos ≥ 3)

/-! ## Helper lemmas -/

/-- The mean of a list of rationals that are all at most 1 is at most 1. -/
lemma npMean_le_one {l : List ℚ} (hne : l ≠ []) (hb : ∀ x ∈ l, x ≤ 1) :
    npMean l ≤ 1 := by
  unfold npMean
  have hlen : 0 < (l.length : ℚ) := by
    exact_mod_cast List.length_pos.mpr hne
  rw [div_le_one hlen]
  have h := List.sum_le_card_nsmul l 1 hb
  simpa using h

/-- The mean of a list of nonnegative rationals is nonnegative. -/
lemma npMean_nonneg {l : List ℚ} (hb : ∀ x ∈ l, 0 ≤ x) : 0 ≤ npMean l := by
  unfold npMean
  exact div_nonneg (List.sum_nonneg hb) (by positivity)

/-- Every high-quality score of the intelligent scorer is strictly above
0.5, and at most 1 whenever the raw metric inputs respect the mathematical
bounds of the primitives that produced them. -/
lemma intHQScores_bounds (cfg : SmartConfig) (quick : Bool)
    (l : List (Option IntCmp))
    (hb : ∀ c ∈ l.filterMap id, 0 ≤ c.dist ∧ c.cosine ≤ 1 ∧ c.corr ≤ 1) :
    ∀ s ∈ intHQScores cfg quick l, 1/2 < s ∧ s ≤ 1 := by
  intro s hs
  unfold intHQScores at hs
  split at hs
  · simp at hs
  · obtain ⟨hs1, hs2⟩ := List.mem_filter.mp hs
    obtain ⟨c, hc, rfl⟩ := List.mem_map.mp hs1
    have hcmem : c ∈ l.filterMap id := List.mem_of_mem_filter hc
    obtain ⟨hd, hcos, hcorr⟩ := hb c hcmem
    refine ⟨?_, ?_⟩
    · have := of_decide_eq_true hs2
      linarith [this]
    · unfold intCmpScore
      linarith

/-! ## Claim theorems -/

/-- A concrete quality-gate output: the fixed dictionary returned when the
quality analysis raises (face_recognition_utils.py lines 123-132). -/
def qualityDefault : QualityInfo :=
  { overall_quality := 0.3, blur_score := 0.3, brightness := 0.5
    brightness_score := 0.5, contrast := 0.3, noise_score := 0.3
    is_acceptable := true }

/-- C8: for every live descriptor and landmark input, scoring against a
gallery whose stored descriptor list is empty returns `is_match = false`
with confidence exactly 0 and an explanatory message, in both scorers;
the embedded functions are total, so no exception is possible. -/
theorem C8_empty_gallery :
    (∀ (lms : List (Option ℚ)) (env : List (List (Option ℚ))) (lm : Bool) (std : ℚ),
      advanced_face_comparison advancedConfig ⟨[], lms, env⟩ lm std =
        (false, 0, "Sin datos de rostro registrados")) ∧
    (∀ (lms : List (Option ℚ)) (lm quick : Bool),
      intelligent_face_comparison smartConfig ⟨[], lms⟩ lm quick =
        (false, 0, "Sin datos de rostro")) := by
  exact ⟨fun lms env lm std => rfl, fun lms lm quick => rfl⟩

/-- C10: when the quality analysis itself raises, `detect_image_quality`
fails open, returning `is_acceptable = true` with the fixed default overall
quality 0.3, and neither the advanced registration gate (which rejects only
below 0.15 when unacceptable) nor the advanced verification gate (which
rejects below 0.2) rejects that default, so the image proceeds to face
extraction. -/
theorem C10_quality_fail_open :
    (∀ img : RawImage, detect_image_quality advancedConfig img true = qualityDefault) ∧
    qualityDefault.is_acceptable = true ∧
    qualityDefault.overall_quality = 0.3 ∧
    advRegQualityRejects qualityDefault = false ∧
    advVerifyQualityRejects advancedConfig qualityDefault = false := by
  refine ⟨fun img => rfl, rfl, rfl, ?_, ?_⟩
  · norm_num [advRegQualityRejects, qualityDefault]
  · norm_num [advVerifyQualityRejects, qualityDefault, advancedConfig]

/-- A 50-by-50-pixel image whose pixel statistics are unremarkable. -/
def smallImage : RawImage := ⟨50, 50, ⟨60, 0.5, 50, 0⟩⟩

/-- C5 counterexample: a 50×50 image is not rejected by the quality gate
for being too small — `detect_image_quality` accepts it whenever its
blur/brightness/contrast statistics pass, and the registration gate lets
it proceed to face localization; no path checks pixel dimensions. -/
theorem C5_no_dimension_check_cex :
    smallImage.width = 50 ∧ smallImage.height = 50 ∧
    (detect_image_quality advancedConfig smallImage false).is_acceptable = true ∧
    advRegQualityRejects (detect_image_quality advancedConfig smallImage false) = false := by
  norm_num [detect_image_quality, smallImage, advancedConfig, advRegQualityRejects]

/-- C5 amended: the quality gate never reads the image dimensions — its
decision is the same for any two images with the same pixel statistics —
and an image it accepts is never rejected by the registration quality
check, so it proceeds to face localization regardless of size. -/
theorem C5_gate_ignores_dimensions :
    (∀ (w h w2 h2 : ℕ) (st : ImageStats) (f : Bool),
      detect_image_quality advancedConfig ⟨w, h, st⟩ f =
        detect_image_quality advancedConfig ⟨w2, h2, st⟩ f) ∧
    (∀ q : QualityInfo, q.is_acceptable = true → advRegQualityRejects q = false) := by
  constructor
  · intro w h w2 h2 st f
    rfl
  · intro q hq
    simp [advRegQualityRejects, hq]

/-- C5 witness: the dimension-independence and acceptance-propagation of
the gate, evaluated at the concrete 50×50 image. -/
theorem C5_gate_ignores_dimensions_witness :
    (detect_image_quality advancedConfig ⟨50, 50, smallImage.stats⟩ false =
      detect_image_quality advancedConfig ⟨1000, 800, smallImage.stats⟩ false) ∧
    (detect_image_quality advancedConfig smallImage false).is_acceptable = true ∧
    advRegQualityRejects (detect_image_quality advancedConfig smallImage false) = false := by
  refine ⟨C5_gate_ignores_dimensions.1 50 50 1000 800 smallImage.stats false, ?_, ?_⟩
  · norm_num [detect_image_quality, smallImage, advancedConfig]
  · exact C5_gate_ignores_dimensions.2 _
      (by norm_num [detect_image_quality, smallImage, advancedConfig])

/-- C7 counterexample: a NaN (or failed) cosine or correlation computation
contributes the neutral value 0.5 to the combined score of the advanced
scorer, not 0 — a comparison at the distance ceiling with both secondary
metrics NaN scores 0.25 instead of 0 — and the intelligent scorer does not
clamp its inputs at all: a correlation of −1 lowers the combined score
below what a zero (clamped) correlation would give. -/
theorem C7_nan_neutral_cex :
    advMetricVal none = 0.5 ∧
    advCmpScore advancedConfig ⟨0.52, none, none⟩ = 0.25 ∧
    (0.25 : ℚ) ≠ 0 ∧
    intCmpScore ⟨0, 1, -1⟩ = 0.7 ∧
    intCmpScore ⟨0, 1, -1⟩ < intCmpScore ⟨0, 1, 0⟩ := by
  norm_num [advMetricVal, advCmpScore, advEucScore, advancedConfig, intCmpScore]

/-- C7 amended: in the advanced scorer the Euclidean score is clamped to
[0, 1] (for any nonnegative distance), the cosine and correlation values
are floored at 0 and bounded by 1 whenever the primitive returned a real
value at most 1, and a NaN or failed computation contributes the neutral
0.5; the intelligent scorer applies no clamping, but its combined score
still cannot exceed 1 when the raw inputs respect the primitives'
mathematical bounds. -/
theorem C7_clamping :
    (∀ d : ℚ, 0 ≤ d → 0 ≤ advEucScore advancedConfig d ∧ advEucScore advancedConfig d ≤ 1) ∧
    (∀ o : Option ℚ, 0 ≤ advMetricVal o) ∧
    (∀ v : ℚ, v ≤ 1 → advMetricVal (some v) ≤ 1) ∧
    advMetricVal none = 1/2 ∧
    (∀ c : IntCmp, 0 ≤ c.dist → c.cosine ≤ 1 → c.corr ≤ 1 → intCmpScore c ≤ 1) := by
  refine ⟨?_, ?_, ?_, by norm_num [advMetricVal], ?_⟩
  · intro d hd
    unfold advEucScore
    constructor
    · exact le_max_left 0 _
    · have h1 : 0 ≤ d / advancedConfig.max_euclidean_distance := by
        have : (0 : ℚ) < advancedConfig.max_euclidean_distance := by norm_num [advancedConfig]
        positivity
      exact max_le (by norm_num) (by linarith)
  · intro o
    cases o with
    | none => norm_num [advMetricVal]
    | some v => exact le_max_left 0 v
  · intro v hv
    simp only [advMetricVal]
    exact max_le (by norm_num) hv
  · intro c hd hcos hcorr
    unfold intCmpScore
    linarith

/-- C7 witness: the clamping facts evaluated at concrete inputs. -/
theorem C7_clamping_witness :
    (0 ≤ advEucScore advancedConfig 2 ∧ advEucScore advancedConfig 2 ≤ 1) ∧
    advMetricVal (some (-3)) ≤ 1 ∧
    intCmpScore ⟨0, 1, 1⟩ ≤ 1 := by
  refine ⟨C7_clamping.1 2 (by norm_num), ?_, ?_⟩
  · exact C7_clamping.2.2.1 (-3) (by norm_num)
  · exact C7_clamping.2.2.2.2 ⟨0, 1, 1⟩ (by norm_num) (by norm_num) (by norm_num)

/-- A gallery of five stored encodings whose comparison with the live
descriptor is exact: distance 0, cosine similarity 1, correlation 1 —
what identical enrollment photos produce. -/
def identicalGallery : IntStored := ⟨List.replicate 5 (some ⟨0, 1, 1⟩), []⟩

/-- C1 counterexample: a second enrollment for a different employee with
photos visually identical to an existing employee's is accepted —
`create_employee` stores the gallery although scoring the enrollment
against the existing gallery yields a full-confidence match (confidence 1,
far above any 0.80 duplicate threshold).  No duplicate-enrollment check
exists in either enrollment view. -/
theorem C1_no_duplicate_guard_cex :
    create_employee_accepts smartConfig "Empleado B" (List.replicate 5 true)
      [identicalGallery] = true ∧
    (intelligent_face_comparison smartConfig identicalGallery true false).1 = true ∧
    (intelligent_face_comparison smartConfig identicalGallery true false).2.1 ≥ 0.8 := by
  have h : intelligent_face_comparison smartConfig identicalGallery true false =
      (true, 1, "Score") := by
    norm_num [intelligent_face_comparison, identicalGallery, smartConfig, intAllScores,
      intHQScores, intIncluded, intCmpScore, npMean, List.replicate, List.filterMap,
      List.filter, List.cons_ne_nil]
  exact ⟨by decide, by rw [h], by rw [h]; norm_num⟩

/-- C1 amended: neither enrollment endpoint consults the galleries of
existing employees — the enrollment decision is a function of the request
alone (name, photo count, per-photo extraction success, employee
existence), so an enrollment duplicating an already-known face is never
rejected.  Acceptance is exactly the conjunction of the request checks. -/
theorem C1_enrollment_ignores_existing :
    ∀ (name : String) (photos : List Bool) (found : Bool)
      (ex1 ex2 : List IntStored),
      create_employee_accepts smartConfig name photos ex1 =
        create_employee_accepts smartConfig name photos ex2 ∧
      register_employee_face_accepts smartConfig found photos ex1 =
        register_employee_face_accepts smartConfig found photos ex2 ∧
      create_employee_accepts smartConfig name photos ex1 =
        (decide (name ≠ "") && decide (photos.length ≥ 5) &&
          decide ((photos.filter id).length ≥ 3)) := by
  intro name photos found ex1 ex2
  exact ⟨rfl, rfl, rfl⟩

/-- A stored-encoding comparison just above `base_tolerance`, with both
secondary metrics NaN. -/
def nearCmp : AdvCmp := ⟨0.51, none, none⟩

/-- A stored-encoding comparison far beyond every distance ceiling —
clearly a different person — whose cosine and correlation happen to be
perfect. -/
def farCmp : AdvCmp := ⟨2, some 1, some 1⟩

/-- C6 counterexample: in `advanced_face_comparison` a comparison whose
Euclidean distance (2) exceeds every configured ceiling is NOT discarded:
its combined score is a member of the aggregated score list, and its
presence changes (here: raises) the final confidence.  The supplied
standard deviation is exact: its square is the variance of the distance
list. -/
theorem C6_far_distance_contributes_cex :
    farCmp.dist > advancedConfig.max_euclidean_distance ∧
    farCmp.dist > advancedConfig.max_tolerance ∧
    advCmpScore advancedConfig farCmp ∈
      advEncScores advancedConfig [some nearCmp, some farCmp] ∧
    ((149 : ℚ) / 200) ^ 2 = npVariance (advDistances [some nearCmp, some farCmp]) ∧
    (advanced_face_comparison advancedConfig ⟨[some nearCmp, some farCmp], [], []⟩
        false (149 / 200)).2.1 ≠
      (advanced_face_comparison advancedConfig ⟨[some nearCmp], [], []⟩ false 0).2.1 := by
  refine ⟨by norm_num [farCmp, advancedConfig], by norm_num [farCmp, advancedConfig], ?_, ?_, ?_⟩
  · norm_num [advEncScores, advEntries, List.filterMap]
  · norm_num [npVariance, npMean, advDistances, advEntries, List.filterMap, nearCmp, farCmp]
  · have hA : (advanced_face_comparison advancedConfig
        ⟨[some nearCmp, some farCmp], [], []⟩ false (149 / 200)).2.1 = 343 / 1040 := by
      norm_num [advanced_face_comparison, advancedConfig, nearCmp, farCmp, advDistances,
        advEntries, advExcellentCount, advHighQualityCount, advAcceptableCount, advEncScores,
        advEnvScores, advCmpScore, advMetricVal, advEucScore, sortDescQ, insertDescQ, npMean,
        List.filterMap, List.filter, List.cons_ne_nil]
    have hB : (advanced_face_comparison advancedConfig
        ⟨[some nearCmp], [], []⟩ false 0).2.1 = 27 / 104 := by
      norm_num [advanced_face_comparison, advancedConfig, nearCmp, advDistances,
        advEntries, advExcellentCount, advHighQualityCount, advAcceptableCount, advEncScores,
        advEnvScores, advCmpScore, advMetricVal, advEucScore, sortDescQ, insertDescQ, npMean,
        List.filterMap, List.filter, List.cons_ne_nil]
    rw [hA, hB]
    norm_num

/-- Inserting a comparison whose distance exceeds the strict-mode ceiling
0.6 does not change the comparisons the intelligent scorer includes. -/
lemma intIncluded_skip (l1 l2 : List (Option IntCmp)) (c : IntCmp)
    (hc : c.dist > 0.6) :
    intIncluded smartConfig (l1 ++ some c :: l2) = intIncluded smartConfig (l1 ++ l2) := by
  unfold intIncluded
  rw [List.filterMap_append, List.filterMap_append,
    List.filterMap_cons_some (show id (some c) = some c from rfl),
    List.filter_append, List.filter_append, List.filter_cons_of_neg]
  simp [smartConfig, hc]

/-- C6 amended: the hard distance ceiling exists only in the intelligent
scorer — in strict mode a comparison with Euclidean distance above 0.6 is
skipped entirely, leaving the verdict unchanged — while in the advanced
scorer every non-None stored encoding contributes its combined score to
the aggregate, whatever its distance (only the excellent / high-quality /
acceptable counters are distance-gated). -/
theorem C6_distance_ceiling :
    (∀ (l1 l2 : List (Option IntCmp)) (lms : List (Option ℚ)) (c : IntCmp)
       (lm quick : Bool), c.dist > 0.6 → l1 ++ l2 ≠ [] →
      intelligent_face_comparison smartConfig ⟨l1 ++ some c :: l2, lms⟩ lm quick =
        intelligent_face_comparison smartConfig ⟨l1 ++ l2, lms⟩ lm quick) ∧
    (∀ (cfg : AdvConfig) (l1 l2 : List (Option AdvCmp)) (c : AdvCmp),
      advEncScores cfg (l1 ++ some c :: l2) =
        advEncScores cfg l1 ++ advCmpScore cfg c :: advEncScores cfg l2) := by
  constructor
  · intro l1 l2 lms c lm quick hc hne
    have hinc := intIncluded_skip l1 l2 c hc
    have hAll : ∀ q, intAllScores smartConfig q (l1 ++ some c :: l2) =
        intAllScores smartConfig q (l1 ++ l2) := fun q => by
      unfold intAllScores; rw [hinc]
    have hHQ : ∀ q, intHQScores smartConfig q (l1 ++ some c :: l2) =
        intHQScores smartConfig q (l1 ++ l2) := fun q => by
      unfold intHQScores; rw [hinc]
    have h1 : (l1 ++ some c :: l2 : List (Option IntCmp)) ≠ [] := by simp
    unfold intelligent_face_comparison
    dsimp only
    rw [if_neg h1, if_neg hne, hAll, hHQ]
  · intro cfg l1 l2 c
    unfold advEncScores advEntries
    simp [List.filterMap_append]

/-- C6 witness: the ceiling facts evaluated at concrete inputs. -/
theorem C6_distance_ceiling_witness :
    intelligent_face_comparison smartConfig
        ⟨[some ⟨0, 1, 1⟩] ++ some ⟨1, 0, 0⟩ :: [], []⟩ true false =
      intelligent_face_comparison smartConfig ⟨[some ⟨0, 1, 1⟩] ++ [], []⟩ true false ∧
    advEncScores advancedConfig ([] ++ some farCmp :: []) =
      advEncScores advancedConfig [] ++ advCmpScore advancedConfig farCmp ::
        advEncScores advancedConfig [] := by
  constructor
  · exact C6_distance_ceiling.1 [some ⟨0, 1, 1⟩] [] [] ⟨1, 0, 0⟩ true false
      (by norm_num) (by simp)
  · exact C6_distance_ceiling.2 advancedConfig [] [] farCmp

/-- The confidence returned by the advanced scorer is always within [0, 1]:
every early return is 0 and the final confidence is clamped. -/
lemma adv_conf_bounds (cfg : AdvConfig) (st : AdvStored) (lm : Bool) (std : ℚ) :
    0 ≤ (advanced_face_comparison cfg st lm std).2.1 ∧
    (advanced_face_comparison cfg st lm std).2.1 ≤ 1 := by
  unfold advanced_face_comparison
  by_cases h1 : st.encCmps = []
  · rw [if_pos h1]
    exact ⟨le_refl 0, by norm_num⟩
  rw [if_neg h1]
  dsimp only
  by_cases h2 : advEncScores cfg st.encCmps ++ advEnvScores cfg st.envAdapt = []
  · rw [if_pos h2]
    exact ⟨le_refl 0, by norm_num⟩
  rw [if_neg h2]
  by_cases h3 : advAcceptableCount cfg st.encCmps < cfg.min_matches
  · rw [if_pos h3]
    exact ⟨le_refl 0, by norm_num⟩
  rw [if_neg h3]
  dsimp only
  exact ⟨le_max_left 0 _, max_le (by norm_num) (min_le_right _ 1)⟩

/-- The confidence returned by the intelligent scorer lies in [0, 1]
whenever the raw metric inputs respect the primitives' bounds. -/
lemma int_conf_bounds (st : IntStored) (lm quick : Bool)
    (hb : ∀ c ∈ st.encCmps.filterMap id, 0 ≤ c.dist ∧ c.cosine ≤ 1 ∧ c.corr ≤ 1) :
    0 ≤ (intelligent_face_comparison smartConfig st lm quick).2.1 ∧
    (intelligent_face_comparison smartConfig st lm quick).2.1 ≤ 1 := by
  have hqb := intHQScores_bounds smartConfig quick st.encCmps hb
  unfold intelligent_face_comparison
  by_cases h1 : st.encCmps = []
  · rw [if_pos h1]
    exact ⟨le_refl 0, by norm_num⟩
  rw [if_neg h1]
  by_cases h2 : smartConfig.strict_mode = true ∧ lm = false
  · rw [if_pos h2]
    exact ⟨le_refl 0, by norm_num⟩
  rw [if_neg h2]
  dsimp only
  by_cases h3 : smartConfig.strict_mode = true ∧
      (intHQScores smartConfig quick st.encCmps).length < smartConfig.min_matches
  · rw [if_pos h3]
    exact ⟨le_refl 0, by norm_num⟩
  rw [if_neg h3]
  by_cases h4 : lm = true ∧ st.lmSims ≠ [] ∧ st.lmSims.filterMap id ≠ [] ∧
      smartConfig.strict_mode = true ∧ ¬(npMean (st.lmSims.filterMap id) > 0.65)
  · rw [if_pos h4]
    exact ⟨le_refl 0, by norm_num⟩
  rw [if_neg h4]
  by_cases h5 : intAllScores smartConfig quick st.encCmps = []
  · rw [if_pos h5]
    exact ⟨le_refl 0, by norm_num⟩
  rw [if_neg h5]
  have hsm : smartConfig.strict_mode = true := rfl
  have hne : intHQScores smartConfig quick st.encCmps ≠ [] := by
    intro he
    apply h3
    refine ⟨hsm, ?_⟩
    rw [he]
    norm_num [smartConfig]
  rw [if_pos (⟨hsm, hne⟩ : smartConfig.strict_mode = true ∧
    intHQScores smartConfig quick st.encCmps ≠ [])]
  have hmb : 0 ≤ npMean (intHQScores smartConfig quick st.encCmps) ∧
      npMean (intHQScores smartConfig quick st.encCmps) ≤ 1 := by
    constructor
    · exact npMean_nonneg (fun s hs => le_of_lt (lt_trans (by norm_num) (hqb s hs).1))
    · exact npMean_le_one hne (fun s hs => (hqb s hs).2)
  by_cases h6 : npMean (intHQScores smartConfig quick st.encCmps) < smartConfig.min_confidence
  · rw [if_pos h6]
    exact hmb
  rw [if_neg h6]
  dsimp only
  constructor
  · exact le_min (by norm_num)
      (le_trans (show (0 : ℚ) ≤ smartConfig.min_confidence by norm_num [smartConfig])
        (not_lt.mp h6))
  · exact min_le_left 1 _

/-- C3: the confidence returned by the match scorer lies within [0, 1] on
every path.  For the advanced scorer this holds unconditionally (over every
configuration and every standard-deviation value): each early return is 0
and the final confidence is clamped.  For the intelligent scorer (which
clamps nothing) it holds whenever the raw metric inputs respect the
mathematical bounds of the primitives that produced them: distances are
nonnegative, cosine similarities and correlations are at most 1. -/
theorem C3_confidence_in_unit_interval :
    (∀ (cfg : AdvConfig) (st : AdvStored) (lm : Bool) (std : ℚ),
      0 ≤ (advanced_face_comparison cfg st lm std).2.1 ∧
      (advanced_face_comparison cfg st lm std).2.1 ≤ 1) ∧
    (∀ (st : IntStored) (lm quick : Bool),
      (∀ c ∈ st.encCmps.filterMap id, 0 ≤ c.dist ∧ c.cosine ≤ 1 ∧ c.corr ≤ 1) →
      0 ≤ (intelligent_face_comparison smartConfig st lm quick).2.1 ∧
      (intelligent_face_comparison smartConfig st lm quick).2.1 ≤ 1) :=
  ⟨adv_conf_bounds, int_conf_bounds⟩

/-- C3 witness: the bounds evaluated at concrete galleries. -/
theorem C3_confidence_in_unit_interval_witness :
    (0 ≤ (advanced_face_comparison advancedConfig ⟨[some nearCmp], [], []⟩ false 0).2.1 ∧
      (advanced_face_comparison advancedConfig ⟨[some nearCmp], [], []⟩ false 0).2.1 ≤ 1) ∧
    (0 ≤ (intelligent_face_comparison smartConfig identicalGallery true false).2.1 ∧
      (intelligent_face_comparison smartConfig identicalGallery true false).2.1 ≤ 1) := by
  constructor
  · exact C3_confidence_in_unit_interval.1 advancedConfig ⟨[some nearCmp], [], []⟩ false 0
  · refine C3_confidence_in_unit_interval.2 identicalGallery true false ?_
    intro c hc
    have hc2 : c = ⟨0, 1, 1⟩ := by
      simpa [identicalGallery, List.replicate, List.mem_filterMap] using hc
    rw [hc2]
    norm_num

/-- A true verdict of the advanced scorer implies the confidence floor and
the acceptable-match floor. -/
lemma adv_comparison_spec (st : AdvStored) (lm : Bool) (std : ℚ)
    (h : (advanced_face_comparison advancedConfig st lm std).1 = true) :
    advancedConfig.min_confidence ≤ (advanced_face_comparison advancedConfig st lm std).2.1 ∧
    advancedConfig.min_matches ≤ advAcceptableCount advancedConfig st.encCmps := by
  rw [advanced_face_comparison] at h ⊢
  by_cases h1 : st.encCmps = []
  · rw [if_pos h1] at h
    exact absurd h (by simp)
  rw [if_neg h1] at h ⊢
  dsimp only at h ⊢
  by_cases h2 : advEncScores advancedConfig st.encCmps ++
      advEnvScores advancedConfig st.envAdapt = []
  · rw [if_pos h2] at h
    exact absurd h (by simp)
  rw [if_neg h2] at h ⊢
  by_cases h3 : advAcceptableCount advancedConfig st.encCmps < advancedConfig.min_matches
  · rw [if_pos h3] at h
    exact absurd h (by simp)
  rw [if_neg h3] at h ⊢
  dsimp only at h ⊢
  rw [Bool.and_eq_true, decide_eq_true_eq, decide_eq_true_eq] at h
  exact ⟨h.1, h.2⟩

/-- A true verdict of the intelligent scorer implies the confidence floor
and the high-quality-match floor. -/
lemma int_comparison_spec (st : IntStored) (lm quick : Bool)
    (h : (intelligent_face_comparison smartConfig st lm quick).1 = true) :
    smartConfig.min_confidence ≤ (intelligent_face_comparison smartConfig st lm quick).2.1 ∧
    smartConfig.min_matches ≤ (intHQScores smartConfig quick st.encCmps).length := by
  rw [intelligent_face_comparison] at h ⊢
  by_cases h1 : st.encCmps = []
  · rw [if_pos h1] at h
    exact absurd h (by simp)
  rw [if_neg h1] at h ⊢
  by_cases h2 : smartConfig.strict_mode = true ∧ lm = false
  · rw [if_pos h2] at h
    exact absurd h (by simp)
  rw [if_neg h2] at h ⊢
  dsimp only at h ⊢
  by_cases h3 : smartConfig.strict_mode = true ∧
      (intHQScores smartConfig quick st.encCmps).length < smartConfig.min_matches
  · rw [if_pos h3] at h
    exact absurd h (by simp)
  rw [if_neg h3] at h ⊢
  have hcount : smartConfig.min_matches ≤ (intHQScores smartConfig quick st.encCmps).length := by
    by_contra hlt
    exact h3 ⟨rfl, not_le.mp hlt⟩
  by_cases h4 : lm = true ∧ st.lmSims ≠ [] ∧ st.lmSims.filterMap id ≠ [] ∧
      smartConfig.strict_mode = true ∧ ¬(npMean (st.lmSims.filterMap id) > 0.65)
  · rw [if_pos h4] at h
    exact absurd h (by simp)
  rw [if_neg h4] at h ⊢
  by_cases h5 : intAllScores smartConfig quick st.encCmps = []
  · rw [if_pos h5] at h
    exact absurd h (by simp)
  rw [if_neg h5] at h ⊢
  by_cases h6 : (if smartConfig.strict_mode = true ∧
        intHQScores smartConfig quick st.encCmps ≠ [] then
      npMean (intHQScores smartConfig quick st.encCmps)
    else npPercentile60 (intAllScores smartConfig quick st.encCmps)) <
      smartConfig.min_confidence
  · rw [if_pos h6] at h
    exact absurd h (by simp)
  rw [if_neg h6] at h ⊢
  dsimp only at h ⊢
  refine ⟨?_, hcount⟩
  exact le_min (by norm_num [smartConfig]) (not_lt.mp h6)

/-- C4: a true `is_match` verdict implies both that the returned confidence
reaches the configured `min_confidence` and that the count of qualifying
comparisons reaches the configured `min_matches` — acceptable matches for
the advanced scorer, high-quality scores for the intelligent one. -/
theorem C4_threshold_consistency :
    (∀ (st : AdvStored) (lm : Bool) (std : ℚ),
      (advanced_face_comparison advancedConfig st lm std).1 = true →
      advancedConfig.min_confidence ≤ (advanced_face_comparison advancedConfig st lm std).2.1 ∧
      advancedConfig.min_matches ≤ advAcceptableCount advancedConfig st.encCmps) ∧
    (∀ (st : IntStored) (lm quick : Bool),
      (intelligent_face_comparison smartConfig st lm quick).1 = true →
      smartConfig.min_confidence ≤ (intelligent_face_comparison smartConfig st lm quick).2.1 ∧
      smartConfig.min_matches ≤ (intHQScores smartConfig quick st.encCmps).length) :=
  ⟨adv_comparison_spec, int_comparison_spec⟩

/-- A gallery whose single stored encoding compares perfectly with the
live descriptor: distance 0, cosine 1, correlation 1. -/
def goodAdvGallery : AdvStored := ⟨[some ⟨0, some 1, some 1⟩], [], []⟩

/-- C4 witness: the threshold-consistency implications applied at concrete
matching inputs for both scorers. -/
theorem C4_threshold_consistency_witness :
    (advancedConfig.min_confidence ≤
        (advanced_face_comparison advancedConfig goodAdvGallery false 0).2.1 ∧
      advancedConfig.min_matches ≤ advAcceptableCount advancedConfig goodAdvGallery.encCmps) ∧
    (smartConfig.min_confidence ≤
        (intelligent_face_comparison smartConfig identicalGallery true false).2.1 ∧
      smartConfig.min_matches ≤
        (intHQScores smartConfig false identicalGallery.encCmps).length) := by
  constructor
  · refine C4_threshold_consistency.1 goodAdvGallery false 0 ?_
    norm_num [advanced_face_comparison, advancedConfig, goodAdvGallery, advDistances,
      advEntries, advExcellentCount, advHighQualityCount, advAcceptableCount, advEncScores,
      advEnvScores, advCmpScore, advMetricVal, advEucScore, sortDescQ, insertDescQ, npMean,
      List.filterMap, List.filter, List.cons_ne_nil]
  · refine C4_threshold_consistency.2 identicalGallery true false ?_
    norm_num [intelligent_face_comparison, identicalGallery, smartConfig, intAllScores,
      intHQScores, intIncluded, intCmpScore, npMean, List.replicate, List.filterMap,
      List.filter, List.cons_ne_nil]

/-- An employee whose first stored-encoding comparison has Euclidean
distance 0.52 — giving quick-mode confidence 0.48: above the quick-path
recording threshold 0.45 but below its match threshold 0.5. -/
def quickEmp : SearchEmp := ⟨1, ⟨[some ⟨0.52, 1, 1⟩], []⟩⟩

/-- C2 counterexample: in the timeout-degraded quick mode, the gallery
search returns an employee as best match even though no candidate verdict
has `is_match = true` — a confidence of 0.48 updates the running best
while being recorded with a false match flag, contradicting the claim
that no employee is returned when no candidate matches. -/
theorem C2_quick_path_cex :
    (runSearch smartConfig true [(quickEmp, SearchMode.quick)]).1 = some 1 ∧
    ∀ r ∈ (runSearch smartConfig true [(quickEmp, SearchMode.quick)]).2.2,
      r.isMatch = false := by
  have h : runSearch smartConfig true [(quickEmp, SearchMode.quick)] =
      (some 1, 12 / 25, [⟨1, 12 / 25, false⟩]) := by
    norm_num [runSearch, runSearchAux, quickEmp, List.head?]
  rw [h]
  constructor
  · rfl
  · intro r hr
    simp only [List.mem_singleton] at hr
    rw [hr]

/-- C9: a verification that hits the wall-clock timeout produces the
distinct timeout outcome — the 408 timeout response, carrying no match —
and no execution outcome mapped to the unauthorized (403) response or to
the success response can be the timeout outcome: the timeout is never
reinterpreted as unauthorized and never yields a fabricated match. -/
theorem C9_timeout_distinct :
    verify_attendance_face true ExecOutcome.timedOut = VerifyResponse.timeout ∧
    (∀ (out : ExecOutcome) (cl : Option ℕ),
      verify_attendance_face true out = VerifyResponse.accessDenied cl →
      out ≠ ExecOutcome.timedOut) ∧
    (∀ (out : ExecOutcome) (i : ℕ) (c : ℚ),
      verify_attendance_face true out = VerifyResponse.success i c →
      out ≠ ExecOutcome.timedOut) := by
  have ht : verify_attendance_face true ExecOutcome.timedOut = VerifyResponse.timeout := by
    simp [verify_attendance_face, process_verification_with_timeout]
  refine ⟨ht, ?_, ?_⟩
  · rintro out cl h rfl
    rw [ht] at h
    exact absurd h (by simp)
  · rintro out i c h rfl
    rw [ht] at h
    exact absurd h (by simp)

/-- An executor outcome that completed normally but recognized nobody:
one candidate with confidence 0.5 and a false match flag. -/
def deniedOutcome : ExecOutcome :=
  ExecOutcome.completed (some ⟨none, 0, [⟨1, 1 / 2, false⟩]⟩) none

/-- C9 witness: the no-reinterpretation implication applied at a concrete
unauthorized outcome. -/
theorem C9_timeout_distinct_witness :
    verify_attendance_face true deniedOutcome = VerifyResponse.accessDenied (some 1) ∧
    deniedOutcome ≠ ExecOutcome.timedOut := by
  have h : verify_attendance_face true deniedOutcome = VerifyResponse.accessDenied (some 1) := by
    norm_num [verify_attendance_face, process_verification_with_timeout, deniedOutcome,
      maxByConf, timeoutMsg]
  exact ⟨h, C9_timeout_distinct.2.1 deniedOutcome (some 1) h⟩

/-- Invariant of the gallery-search loop on a full-comparison schedule:
with no best yet, the best confidence is 0 and no recorded verdict
matched; with a best tracked, the best confidence reaches the configured
confidence floor, the first recorded result attaining the best confidence
among matching results is exactly the tracked best (so ties keep the
earlier employee), and every matching recorded result has confidence at
most the best. -/
def searchInv : Option ℕ → ℚ → List SRes → Prop
  | none, bc, rs => bc = 0 ∧ ∀ r ∈ rs, r.isMatch = false
  | some e, bc, rs =>
      smartConfig.min_confidence ≤ bc ∧
      rs.find? (fun r => r.isMatch && decide (bc ≤ r.conf)) = some ⟨e, bc, true⟩ ∧
      ∀ r ∈ rs, r.isMatch = true → r.conf ≤ bc

/-- One full-comparison step of the search loop, written out. -/
lemma runSearchAux_full_step (lmb : Bool) (e : SearchEmp)
    (rest : List (SearchEmp × SearchMode)) (best : Option ℕ) (bc : ℚ) (rs : List SRes) :
    runSearchAux smartConfig lmb ((e, SearchMode.full) :: rest) best bc rs =
      if (intelligent_face_comparison smartConfig e.stored lmb false).1 = true ∧
          (intelligent_face_comparison smartConfig e.stored lmb false).2.1 > bc then
        runSearchAux smartConfig lmb rest (some e.empId)
          (intelligent_face_comparison smartConfig e.stored lmb false).2.1
          (rs ++ [⟨e.empId, (intelligent_face_comparison smartConfig e.stored lmb false).2.1,
            (intelligent_face_comparison smartConfig e.stored lmb false).1⟩])
      else
        runSearchAux smartConfig lmb rest best bc
          (rs ++ [⟨e.empId, (intelligent_face_comparison smartConfig e.stored lmb false).2.1,
            (intelligent_face_comparison smartConfig e.stored lmb false).1⟩]) := rfl

/-- The search invariant is preserved by one full-comparison step. -/
lemma searchInv_full_step (lmb : Bool) (e : SearchEmp) (best : Option ℕ) (bc : ℚ)
    (rs : List SRes) (hInv : searchInv best bc rs) :
    ((intelligent_face_comparison smartConfig e.stored lmb false).1 = true ∧
        (intelligent_face_comparison smartConfig e.stored lmb false).2.1 > bc →
      searchInv (some e.empId) (intelligent_face_comparison smartConfig e.stored lmb false).2.1
        (rs ++ [⟨e.empId, (intelligent_face_comparison smartConfig e.stored lmb false).2.1,
          (intelligent_face_comparison smartConfig e.stored lmb false).1⟩])) ∧
    (¬((intelligent_face_comparison smartConfig e.stored lmb false).1 = true ∧
        (intelligent_face_comparison smartConfig e.stored lmb false).2.1 > bc) →
      searchInv best bc
        (rs ++ [⟨e.empId, (intelligent_face_comparison smartConfig e.stored lmb false).2.1,
          (intelligent_face_comparison smartConfig e.stored lmb false).1⟩])) := by
  rcases hveq : intelligent_face_comparison smartConfig e.stored lmb false with ⟨m, conf, expl⟩
  have hspec : m = true → smartConfig.min_confidence ≤ conf := by
    intro hm
    have h := (int_comparison_spec e.stored lmb false (by rw [hveq]; exact hm)).1
    rw [hveq] at h
    exact h
  simp only [hveq]
  constructor
  · rintro ⟨hm, hgt⟩
    subst hm
    have hc : smartConfig.min_confidence ≤ conf := hspec rfl
    have hnone : rs.find? (fun r => r.isMatch && decide (conf ≤ r.conf)) = none := by
      rw [List.find?_eq_none]
      intro x hx
      cases best with
      | none =>
        have hx2 := hInv.2 x hx
        simp [hx2]
      | some e0 =>
        by_cases hxm : x.isMatch = true
        · have hle := hInv.2.2 x hx hxm
          have hnle : ¬ (conf ≤ x.conf) := fun hcx =>
            absurd (le_trans hcx hle) (not_le.mpr hgt)
          simp [hnle]
        · rw [Bool.not_eq_true] at hxm
          simp [hxm]
    refine ⟨hc, ?_, ?_⟩
    · have hp : ((fun r : SRes => r.isMatch && decide (conf ≤ r.conf))
          ⟨e.empId, conf, true⟩) = true := by simp
      rw [List.find?_append, hnone, Option.none_or]
      exact List.find?_cons_of_pos _ hp
    · intro r hr hrm
      rcases List.mem_append.mp hr with h | h
      · cases best with
        | none => exact absurd hrm (by simp [hInv.2 r h])
        | some e0 => exact le_trans (hInv.2.2 r h hrm) (le_of_lt hgt)
      · rw [List.mem_singleton] at h
        rw [h]
  · intro hneg
    cases best with
    | none =>
      obtain ⟨hbc, hall⟩ := hInv
      have hm : m = false := by
        rcases Bool.eq_false_or_eq_true m with hm | hm
        swap
        · exact hm
        · exfalso
          apply hneg
          refine ⟨hm, ?_⟩
          have h1 := hspec hm
          have h2 : (0 : ℚ) < smartConfig.min_confidence := by norm_num [smartConfig]
          rw [hbc]
          linarith
      subst hm
      refine ⟨hbc, ?_⟩
      intro r hr
      rcases List.mem_append.mp hr with h | h
      · exact hall r h
      · rw [List.mem_singleton] at h
        rw [h]
    | some e0 =>
      obtain ⟨hbc, hfind, hall⟩ := hInv
      refine ⟨hbc, ?_, ?_⟩
      · rw [List.find?_append, hfind, Option.or_some]
      · intro r hr hrm
        rcases List.mem_append.mp hr with h | h
        · exact hall r h hrm
        · rw [List.mem_singleton] at h
          subst h
          have hm : m = true := hrm
          have hle : ¬ conf > bc := fun hgt => hneg ⟨hm, hgt⟩
          exact not_lt.mp hle

/-- The search invariant holds after running the loop over any
full-comparison schedule, from any state satisfying it. -/
lemma runSearchAux_inv (lmb : Bool) :
    ∀ (items : List (SearchEmp × SearchMode)),
      (∀ p ∈ items, p.2 = SearchMode.full) →
      ∀ (best : Option ℕ) (bc : ℚ) (rs : List SRes), searchInv best bc rs →
      searchInv (runSearchAux smartConfig lmb items best bc rs).1
        (runSearchAux smartConfig lmb items best bc rs).2.1
        (runSearchAux smartConfig lmb items best bc rs).2.2 := by
  intro items
  induction items with
  | nil =>
    intro _ best bc rs hInv
    exact hInv
  | cons p rest ih =>
    intro hfull best bc rs hInv
    obtain ⟨e, mo⟩ := p
    have hmo : mo = SearchMode.full := hfull (e, mo) (List.mem_cons_self _ _)
    subst hmo
    rw [runSearchAux_full_step]
    have hstep := searchInv_full_step lmb e best bc rs hInv
    by_cases hcond : (intelligent_face_comparison smartConfig e.stored lmb false).1 = true ∧
        (intelligent_face_comparison smartConfig e.stored lmb false).2.1 > bc
    · rw [if_pos hcond]
      exact ih (fun q hq => hfull q (List.mem_cons_of_mem _ hq)) _ _ _ (hstep.1 hcond)
    · rw [if_neg hcond]
      exact ih (fun q hq => hfull q (List.mem_cons_of_mem _ hq)) _ _ _ (hstep.2 hcond)

/-- C2 amended: on the full-comparison path (every employee scored by the
match scorer before the degraded-mode threshold), the gallery search is
correct: when no employee is returned, no recorded verdict has
`is_match = true`; when an employee is returned, its confidence reaches
the configured floor, the first recorded result attaining the best
confidence among matching results is exactly the returned employee with a
true match flag (equal confidences keep the earlier employee), and every
matching result has confidence at most the returned one.  The
counterexample shows this fails on the degraded quick path. -/
theorem C2_best_match_full_path (lmb : Bool) (items : List (SearchEmp × SearchMode))
    (hfull : ∀ p ∈ items, p.2 = SearchMode.full) :
    ((runSearch smartConfig lmb items).1 = none →
      ∀ r ∈ (runSearch smartConfig lmb items).2.2, r.isMatch = false) ∧
    (∀ en, (runSearch smartConfig lmb items).1 = some en →
      smartConfig.min_confidence ≤ (runSearch smartConfig lmb items).2.1 ∧
      (runSearch smartConfig lmb items).2.2.find?
          (fun r => r.isMatch && decide ((runSearch smartConfig lmb items).2.1 ≤ r.conf)) =
        some ⟨en, (runSearch smartConfig lmb items).2.1, true⟩ ∧
      ∀ r ∈ (runSearch smartConfig lmb items).2.2, r.isMatch = true →
        r.conf ≤ (runSearch smartConfig lmb items).2.1) := by
  have hInv : searchInv (runSearch smartConfig lmb items).1
      (runSearch smartConfig lmb items).2.1 (runSearch smartConfig lmb items).2.2 :=
    runSearchAux_inv lmb items hfull none 0 []
      ⟨rfl, fun r hr => absurd hr (List.not_mem_nil r)⟩
  constructor
  · intro hnone
    rw [hnone] at hInv
    exact hInv.2
  · intro en hen
    rw [hen] at hInv
    exact ⟨hInv.1, hInv.2.1, hInv.2.2⟩

/-- C2 witness: the full-path guarantees applied to a concrete one-employee
search that succeeds. -/
theorem C2_best_match_full_path_witness :
    smartConfig.min_confidence ≤
      (runSearch smartConfig true [(⟨7, identicalGallery⟩, SearchMode.full)]).2.1 ∧
    (runSearch smartConfig true [(⟨7, identicalGallery⟩, SearchMode.full)]).2.2.find?
        (fun r => r.isMatch && decide
          ((runSearch smartConfig true [(⟨7, identicalGallery⟩, SearchMode.full)]).2.1 ≤ r.conf)) =
      some ⟨7, (runSearch smartConfig true [(⟨7, identicalGallery⟩, SearchMode.full)]).2.1, true⟩ ∧
    ∀ r ∈ (runSearch smartConfig true [(⟨7, identicalGallery⟩, SearchMode.full)]).2.2,
      r.isMatch = true →
      r.conf ≤ (runSearch smartConfig true [(⟨7, identicalGallery⟩, SearchMode.full)]).2.1 := by
  apply (C2_best_match_full_path true [(⟨7, identicalGallery⟩, SearchMode.full)]
    (by intro p hp; rw [List.mem_singleton] at hp; rw [hp])).2 7
  have hv : intelligent_face_comparison smartConfig identicalGallery true false =
      (true, 1, "Score") := by
    norm_num [intelligent_face_comparison, identicalGallery, smartConfig, intAllScores,
      intHQScores, intIncluded, intCmpScore, npMean, List.replicate, List.filterMap,
      List.filter, List.cons_ne_nil]
  rw [runSearch, runSearchAux_full_step, hv]
  norm_num [runSearchAux]

end FacialRec
